import Mathlib

/-!
Shallow embedding of the EventBot script (FIFI.PY): category classifiers,
document store with title-deduplicated ingestion, prompt selection and the
question-answering handler.  Python strings are Lean `String`s; the SQLite
table is a list of rows; the filesystem, the PDF extractor and the
retrieval-plus-generation chain are explicit parameters.  The French
category strings of the source correspond to the spec labels as follows:
WEDDING = "MARIAGE", SEMINAR = "SEMINAIRE", EXPO = "SALON",
CREATIVITY = "CRÉATIVITÉ", BUDGET = "BUDGET", PLANNING = "PLANIFICATION".
-/

namespace EventBot

/-- Lowercasing of one character as Python's str.lower does on the
alphabets this program uses: ASCII letters and the Latin-1 accented
letters (U+00C0 to U+00DE, excluding the multiplication sign U+00D7). -/
def pyLowerChar (c : Char) : Char :=
  if 'A' ≤ c && c ≤ 'Z' then Char.ofNat (c.toNat + 32)
  else if 0xC0 ≤ c.toNat && c.toNat ≤ 0xDE && c.toNat != 0xD7 then Char.ofNat (c.toNat + 32)
  else c

/-- Python's str.lower, character by character. -/
def pyLower (s : String) : String :=
  ⟨s.data.map pyLowerChar⟩

/-- Does the character list begin with the given needle? -/
def beginsWith : List Char → List Char → Bool
  | [], _ => true
  | _ :: _, [] => false
  | a :: as, b :: bs => a == b && beginsWith as bs

/-- Substring containment on character lists: the needle occurs
contiguously somewhere in the haystack. -/
def containsSub (needle : List Char) : List Char → Bool
  | [] => beginsWith needle []
  | c :: t => beginsWith needle (c :: t) || containsSub needle t

/-- Python's `needle in hay` on strings. -/
def pyIn (needle hay : String) : Bool :=
  containsSub needle.data hay.data

/-- Python whitespace characters stripped by str.strip. -/
def isSpaceChar (c : Char) : Bool :=
  c == ' ' || c == '\t' || c == '\n' || c == '\r' || c == '\x0b' || c == '\x0c'

/-- Python's str.strip: remove leading and trailing whitespace. -/
def pyStrip (s : String) : String :=
  ⟨((s.data.dropWhile isSpaceChar).reverse.dropWhile isSpaceChar).reverse⟩

/-- The space-separated words of a string (used only to state that the
classifiers do substring matching, not whole-word matching). -/
def wordsOf (s : String) : List String :=
  (s.data.splitOn ' ').map (fun cs => ⟨cs⟩)

/-- Source detect_type_from_filename (FIFI.PY lines 49 to 64): lowercase
the filename, then an if/elif chain of substring tests, falling back to
"SEMINAIRE". -/
def detect_type_from_filename (filename : String) : String :=
  let fname := pyLower filename
  if pyIn "mariage" fname then "MARIAGE"
  else if pyIn "logistique" fname || pyIn "conference" fname then "SEMINAIRE"
  else if pyIn "salon" fname then "SALON"
  else if pyIn "theme" fname || pyIn "idee" fname || pyIn "creatif" fname
       || pyIn "ambiance" fname then "CRÉATIVITÉ"
  else if pyIn "budget" fname || pyIn "finance" fname then "BUDGET"
  else if pyIn "planning" fname || pyIn "programme" fname then "PLANIFICATION"
  else "SEMINAIRE"

/-- Source detect_event_type (FIFI.PY lines 216 to 229): lowercase the
question, then an if/elif chain of any-keyword substring tests, falling
back to "SEMINAIRE". -/
def detect_event_type (question : String) : String :=
  let q := pyLower question
  if ["mariage", "noces", "fiançailles"].any (fun word => pyIn word q) then "MARIAGE"
  else if ["salon", "exposition", "stand"].any (fun word => pyIn word q) then "SALON"
  else if ["ambiance", "thème", "décoration", "idées", "créatif"].any
      (fun word => pyIn word q) then "CRÉATIVITÉ"
  else if ["budget", "financement", "coût", "prix"].any (fun word => pyIn word q) then "BUDGET"
  else if ["planning", "planification", "étapes", "programme"].any
      (fun word => pyIn word q) then "PLANIFICATION"
  else "SEMINAIRE"

/-- The spec's declarative form of a classifier: an ordered list of
(keyword-set, category) rules, evaluated top to bottom on the lowercased
input; the first rule one of whose keywords occurs as a substring wins;
if none match, the fallback is returned. -/
def classifyByRules (rules : List (List String × String)) (fallback : String)
    (s : String) : String :=
  match rules with
  | [] => fallback
  | (kws, cat) :: rest =>
    if kws.any (fun k => pyIn k (pyLower s)) then cat
    else classifyByRules rest fallback s

/-- The spec's filename rule table, in its stated order. -/
def filenameRules : List (List String × String) :=
  [(["mariage"], "MARIAGE"),
   (["logistique", "conference"], "SEMINAIRE"),
   (["salon"], "SALON"),
   (["theme", "idee", "creatif", "ambiance"], "CRÉATIVITÉ"),
   (["budget", "finance"], "BUDGET"),
   (["planning", "programme"], "PLANIFICATION")]

/-- The spec's question rule table, in its stated order. -/
def questionRules : List (List String × String) :=
  [(["mariage", "noces", "fiançailles"], "MARIAGE"),
   (["salon", "exposition", "stand"], "SALON"),
   (["ambiance", "thème", "décoration", "idées", "créatif"], "CRÉATIVITÉ"),
   (["budget", "financement", "coût", "prix"], "BUDGET"),
   (["planning", "planification", "étapes", "programme"], "PLANIFICATION")]

/-- A row of the SQLite table documents(id, title, content, type). -/
structure DBRow where
  id : Nat
  title : String
  content : String
  type : String
deriving DecidableEq

/-- The documents table together with the AUTOINCREMENT counter. -/
structure DB where
  rows : List DBRow
  nextId : Nat
deriving DecidableEq

/-- The fixed ingestion list PDF_PATHS of the source. -/
def PDF_PATHS : List String :=
  ["pdfs/idees_themes.pdf",
   "pdfs/budget_mariage.pdf",
   "pdfs/logistique_conference.pdf",
   "pdfs/planning_evenement.pdf",
   "pdfs/to do list mariage.pdf"]

/-- The external filesystem and PDF extractor: whether a path exists, and
extraction of a path into its ordered page texts or an error message
(PyPDFLoader.load, which the source wraps in try/except). -/
structure FS where
  path_exists : String → Bool
  extract_pages : String → Except String (List String)

/-- os.path.basename for slash-separated paths. -/
def basename (p : String) : String :=
  ⟨(p.data.reverse.takeWhile (fun c => c != '/')).reverse⟩

/-- Result of SELECT COUNT(*) FROM documents WHERE title = t. -/
def countTitle (db : DB) (t : String) : Nat :=
  (db.rows.filter (fun r => r.title == t)).length

/-- The titles currently stored. -/
def titles (db : DB) : List String :=
  db.rows.map (fun r => r.title)

/-- INSERT INTO documents (title, content, type) VALUES (?, ?, ?). -/
def insertRow (db : DB) (title content doc_type : String) : DB :=
  { rows := db.rows ++ [⟨db.nextId, title, content, doc_type⟩], nextId := db.nextId + 1 }

/-- The loop body of insert_pdfs (FIFI.PY lines 67 to 90), over an
explicit path list: a missing path is recorded and skipped; a failing
extraction is recorded with its message and skipped; otherwise the pages
are joined with newlines, the title is the basename, the type comes from
detect_type_from_filename, and the row is inserted only when no row with
that title exists.  Returns the final table, the missing paths and the
failed paths with messages, each in input order. -/
def insert_pdfs_from (fs : FS) : List String → DB → DB × List String × List (String × String)
  | [], db => (db, [], [])
  | pdf_path :: rest, db =>
    if fs.path_exists pdf_path = false then
      let r := insert_pdfs_from fs rest db
      (r.1, pdf_path :: r.2.1, r.2.2)
    else
      match fs.extract_pages pdf_path with
      | Except.error e =>
        let r := insert_pdfs_from fs rest db
        (r.1, r.2.1, (pdf_path, e) :: r.2.2)
      | Except.ok pages =>
        let full_text := String.intercalate "\n" pages
        let title := basename pdf_path
        let doc_type := detect_type_from_filename title
        let db1 := if countTitle db title = 0 then insertRow db title full_text doc_type else db
        let r := insert_pdfs_from fs rest db1
        (r.1, r.2.1, r.2.2)

/-- Source insert_pdfs: the loop over the fixed PDF_PATHS list. -/
def insert_pdfs (fs : FS) (db : DB) : DB × List String × List (String × String) :=
  insert_pdfs_from fs PDF_PATHS db

/-- A langchain Document: page content plus the title and type metadata. -/
structure Document where
  page_content : String
  title : String
  type : String
deriving DecidableEq

/-- Source load_documents_from_db: every row as a Document. -/
def load_documents_from_db (db : DB) : List Document :=
  db.rows.map (fun r => { page_content := r.content, title := r.title, type := r.type })

/-- The placeholder document built when the store is empty. -/
def dummy_doc : Document :=
  { page_content := "Bienvenue sur EventBot Pro. Aucun document n\x27est encore disponible.",
    title := "Bienvenue", type := "SEMINAIRE" }

/-- Source create_retriever (FIFI.PY lines 191 to 203), reduced to the
document list handed to the splitter and index builder (the splitter,
FAISS and the embedding model are external collaborators): the stored
documents when there are any, else the single placeholder. -/
def create_retriever_docs (db : DB) : List Document :=
  let all_docs := load_documents_from_db db
  if all_docs ≠ [] then all_docs else [dummy_doc]

/-- A langchain PromptTemplate value. -/
structure PromptTemplate where
  input_variables : List String
  template : String
deriving DecidableEq

/-- The BUDGET entry of prompt_map. -/
def budgetPrompt : PromptTemplate :=
  { input_variables := ["context", "question"],
    template := "\nTu es eventbot, expert en gestion financière d\x27événements.\nFais une estimation claire et stratégique selon le contexte.\n\n📚 CONTEXTE:\n{context}\n\n❓ QUESTION:\n{question}\n\n💰 BUDGET:\n" }

/-- The PLANIFICATION entry of prompt_map. -/
def planificationPrompt : PromptTemplate :=
  { input_variables := ["context", "question"],
    template := "\nTu es eventbot, expert en planification détaillée d\x27événements.\n\n📚 CONTEXTE:\n{context}\n\n❓ QUESTION:\n{question}\n\n📅 PLAN D\x27ACTION:\n" }

/-- The SEMINAIRE entry of prompt_map. -/
def seminairePrompt : PromptTemplate :=
  { input_variables := ["context", "question"],
    template := "\nTu es eventbot , spécialiste de l\x27organisation de séminaires professionnels.\nBase-toi sur le contexte fourni pour répondre à la question suivante.\n\n📚 CONTEXTE:\n{context}\n\n❓ QUESTION:\n{question}\n\n✅ RÉPONSE:\n" }

/-- The MARIAGE entry of prompt_map. -/
def mariagePrompt : PromptTemplate :=
  { input_variables := ["context", "question"],
    template := "\nTu es eventbot, un expert de l\x27organisation de mariages inoubliables.\n\n📚 CONTEXTE:\n{context}\n\n❓ QUESTION:\n{question}\n\n💖 CONSEIL:\n" }

/-- The SALON entry of prompt_map. -/
def salonPrompt : PromptTemplate :=
  { input_variables := ["context", "question"],
    template := "\nTu es eventbot, expert des salons et expositions.\n\n📚 CONTEXTE:\n{context}\n\n❓ QUESTION:\n{question}\n\n🏢 STRATÉGIE:\n" }

/-- The CRÉATIVITÉ entry of prompt_map. -/
def creativitePrompt : PromptTemplate :=
  { input_variables := ["context", "question"],
    template := "\nTu es eventbot, un expert en idées thématiques et concepts d\x27ambiance.\n\n📚 CONTEXTE:\n{context}\n\n❓ QUESTION:\n{question}\n\n✨ IDÉES:\n" }

/-- The prompt_map dict, in source order. -/
def prompt_map : List (String × PromptTemplate) :=
  [("BUDGET", budgetPrompt),
   ("PLANIFICATION", planificationPrompt),
   ("SEMINAIRE", seminairePrompt),
   ("MARIAGE", mariagePrompt),
   ("SALON", salonPrompt),
   ("CRÉATIVITÉ", creativitePrompt)]

/-- Python dict lookup returning an Option. -/
def dictLookup (m : List (String × PromptTemplate)) (k : String) : Option PromptTemplate :=
  (m.find? (fun p => p.1 == k)).map Prod.snd

/-- Python dict.get(k, d). -/
def dictGet (m : List (String × PromptTemplate)) (k : String) (d : PromptTemplate) : PromptTemplate :=
  (dictLookup m k).getD d

/-- Source default_prompt = prompt_map["SEMINAIRE"] (FIFI.PY line 207);
the key is present, so the getD fallback is inert. -/
def default_prompt : PromptTemplate :=
  (dictLookup prompt_map "SEMINAIRE").getD { input_variables := [], template := "" }

/-- One message of the Gradio chat history. -/
structure Turn where
  role : String
  content : String
deriving DecidableEq

/-- The mutable qa_chain state the handler writes through
qa_chain.combine_documents_chain.llm_chain.prompt: the prompt currently
bound on the shared chain object. -/
structure ChainState where
  prompt : PromptTemplate
deriving DecidableEq

/-- What one call of the handler produces: the two Gradio outputs (chat
history and status line), the shared chain state after the call, and the
list of generation invocations made during the call, each recorded with
the template bound on the chain at invocation time and the query. -/
structure AskResult where
  chat_display : List Turn
  status : String
  chain : ChainState
  gen_calls : List (PromptTemplate × String)
deriving DecidableEq

/-- Source ask_question (FIFI.PY lines 244 to 260).  The external
retrieval-plus-generation collaborator gen (qa_chain.invoke plus the
result dict lookup result.get) receives the template bound on the chain
and the question; it returns an error message when it raises, and
otherwise the optional "result" entry of its result dict. -/
def ask_question (gen : PromptTemplate → String → Except String (Option String))
    (question : String) (chat_display : List Turn) (chain : ChainState) : AskResult :=
  if pyStrip question = "" then
    { chat_display := chat_display, status := "❗ Entrez une question.",
      chain := chain, gen_calls := [] }
  else
    let event_type := detect_event_type question
    let chain1 : ChainState := { prompt := dictGet prompt_map event_type default_prompt }
    let answer :=
      match gen chain1.prompt question with
      | Except.ok result => result.getD "Je n\x27ai pas de réponse."
      | Except.error _ => "Erreur lors de la génération."
    { chat_display := chat_display ++
        [{ role := "user", content := question }, { role := "assistant", content := answer }],
      status := "",
      chain := chain1,
      gen_calls := [(chain1.prompt, question)] }

/-- Source clear_chat: reset to an empty history and empty status. -/
def clear_chat : List Turn × String := ([], "")

/-- The source if/elif chain for filenames agrees with the spec's
declarative rule table. -/
lemma detect_type_from_filename_eq_rules (s : String) :
    detect_type_from_filename s = classifyByRules filenameRules "SEMINAIRE" s := by
  simp [detect_type_from_filename, classifyByRules, filenameRules, List.any, or_assoc]

/-- The source if/elif chain for questions agrees with the spec's
declarative rule table. -/
lemma detect_event_type_eq_rules (s : String) :
    detect_event_type s = classifyByRules questionRules "SEMINAIRE" s := by
  simp [detect_event_type, classifyByRules, questionRules, List.any, or_assoc]

/-- Rule evaluation only ever returns a rule's category or the fallback. -/
lemma classifyByRules_mem (rules : List (List String × String)) (fallback s : String) :
    classifyByRules rules fallback s ∈ rules.map Prod.snd ++ [fallback] := by
  induction rules with
  | nil => simp [classifyByRules]
  | cons r rest ih =>
    obtain ⟨kws, cat⟩ := r
    simp only [classifyByRules]
    split
    · simp
    · simp only [List.map_cons, List.cons_append, List.mem_cons]
      exact Or.inr ih

/-- Any question is classified into one of the six fixed categories. -/
lemma detect_event_type_cases (q : String) :
    detect_event_type q = "MARIAGE" ∨ detect_event_type q = "SALON"
    ∨ detect_event_type q = "CRÉATIVITÉ" ∨ detect_event_type q = "BUDGET"
    ∨ detect_event_type q = "PLANIFICATION" ∨ detect_event_type q = "SEMINAIRE" := by
  have h := classifyByRules_mem questionRules "SEMINAIRE" q
  rw [← detect_event_type_eq_rules q] at h
  simpa [questionRules, or_assoc] using h

/-- The gen calls a non-blank question triggers: exactly one, with the
template just bound on the chain for the question's category. -/
lemma ask_question_gen_calls (gen : PromptTemplate → String → Except String (Option String))
    (question : String) (chat_display : List Turn) (chain : ChainState)
    (hq : pyStrip question ≠ "") :
    (ask_question gen question chat_display chain).gen_calls =
      [(dictGet prompt_map (detect_event_type question) default_prompt, question)] := by
  simp [ask_question, hq]

/-- C1: detect_type_from_filename lowercases its input and evaluates the
filename rules top to bottom in the fixed order with first match winning
and SEMINAIRE as the fallback; every filename containing "mariage" is
classified MARIAGE even when other keywords are present, and an
unrecognized name yields SEMINAIRE. -/
theorem detect_type_from_filename_spec :
    (∀ s, detect_type_from_filename s = classifyByRules filenameRules "SEMINAIRE" s)
    ∧ (∀ s, pyIn "mariage" (pyLower s) = true → detect_type_from_filename s = "MARIAGE")
    ∧ detect_type_from_filename "mariage_budget.pdf" = "MARIAGE"
    ∧ detect_type_from_filename "rapport.pdf" = "SEMINAIRE" := by
  refine ⟨detect_type_from_filename_eq_rules, ?_, by decide, by decide⟩
  intro s h
  simp [detect_type_from_filename, h]

/-- C2: detect_event_type lowercases its input and evaluates the question
rules top to bottom in the fixed order with first match winning and
SEMINAIRE as the fallback; "Quel budget pour un mariage?" classifies as
MARIAGE because the wedding keywords are checked before the budget ones. -/
theorem detect_event_type_spec :
    (∀ s, detect_event_type s = classifyByRules questionRules "SEMINAIRE" s)
    ∧ detect_event_type "Quel budget pour un mariage?" = "MARIAGE" := by
  refine ⟨detect_event_type_eq_rules, by decide⟩

/-- C5: a blank or whitespace-only question leaves the history and the
chain state untouched, makes no generation call, and returns the fixed
non-empty prompt-for-input status message. -/
theorem ask_question_blank (gen : PromptTemplate → String → Except String (Option String))
    (question : String) (chat_display : List Turn) (chain : ChainState)
    (h : pyStrip question = "") :
    ask_question gen question chat_display chain =
      { chat_display := chat_display, status := "❗ Entrez une question.",
        chain := chain, gen_calls := [] }
    ∧ "❗ Entrez une question." ≠ "" := by
  refine ⟨?_, by decide⟩
  simp [ask_question, h]

/-- C5 witness: the whitespace-only question "   " at a concrete state. -/
theorem ask_question_blank_witness :
    pyStrip "   " = ""
    ∧ (ask_question (fun _ _ => Except.ok none) "   " [] { prompt := default_prompt } =
        { chat_display := [], status := "❗ Entrez une question.",
          chain := { prompt := default_prompt }, gen_calls := [] }
      ∧ "❗ Entrez une question." ≠ "") :=
  ⟨by decide,
   ask_question_blank (fun _ _ => Except.ok none) "   " [] { prompt := default_prompt } (by decide)⟩

/-- C6: when the generation collaborator raises on a non-blank question,
the handler substitutes the fixed error text as the answer, still appends
the user turn then the assistant turn, and returns normally with an empty
status. -/
theorem ask_question_generation_failure
    (gen : PromptTemplate → String → Except String (Option String))
    (question : String) (chat_display : List Turn) (chain : ChainState) (e : String)
    (hq : pyStrip question ≠ "")
    (hgen : gen (dictGet prompt_map (detect_event_type question) default_prompt) question
              = Except.error e) :
    (ask_question gen question chat_display chain).chat_display =
      chat_display ++ [{ role := "user", content := question },
                       { role := "assistant", content := "Erreur lors de la génération." }]
    ∧ (ask_question gen question chat_display chain).status = "" := by
  constructor <;> simp [ask_question, hq, hgen]

/-- C6 witness: a collaborator that always raises, on the question
"mariage" at a concrete state. -/
theorem ask_question_generation_failure_witness :
    pyStrip "mariage" ≠ ""
    ∧ ((ask_question (fun _ _ => Except.error "boom") "mariage" []
          { prompt := default_prompt }).chat_display =
        [] ++ [{ role := "user", content := "mariage" },
               { role := "assistant", content := "Erreur lors de la génération." }]
      ∧ (ask_question (fun _ _ => Except.error "boom") "mariage" []
          { prompt := default_prompt }).status = "") :=
  ⟨by decide,
   ask_question_generation_failure (fun _ _ => Except.error "boom") "mariage" []
     { prompt := default_prompt } "boom" (by decide) rfl⟩

/-- C7: for a non-blank question, the template bound for the generation
call is the prompt_map entry of the classified category, and the
defensive default never triggers: the lookup always succeeds because the
classifier only returns the six keys of the map. -/
theorem ask_question_prompt_selection
    (gen : PromptTemplate → String → Except String (Option String))
    (question : String) (chat_display : List Turn) (chain : ChainState)
    (hq : pyStrip question ≠ "") :
    (dictLookup prompt_map (detect_event_type question)).isSome = true
    ∧ (ask_question gen question chat_display chain).gen_calls =
        [(dictGet prompt_map (detect_event_type question) default_prompt, question)] := by
  refine ⟨?_, ask_question_gen_calls gen question chat_display chain hq⟩
  rcases detect_event_type_cases question with h | h | h | h | h | h <;> rw [h] <;> decide

/-- C7 witness: the question "Quel budget pour un mariage?" at a concrete
state; the classified category is MARIAGE and its lookup succeeds. -/
theorem ask_question_prompt_selection_witness :
    pyStrip "Quel budget pour un mariage?" ≠ ""
    ∧ ((dictLookup prompt_map (detect_event_type "Quel budget pour un mariage?")).isSome = true
      ∧ (ask_question (fun _ _ => Except.ok none) "Quel budget pour un mariage?" []
            { prompt := default_prompt }).gen_calls =
          [(dictGet prompt_map (detect_event_type "Quel budget pour un mariage?") default_prompt,
            "Quel budget pour un mariage?")]) :=
  ⟨by decide,
   ask_question_prompt_selection (fun _ _ => Except.ok none) "Quel budget pour un mariage?" []
     { prompt := default_prompt } (by decide)⟩

/-- C8 counterexample: the selected template is NOT bound for the current
call only — it is written to the shared chain object and is still there
after the call returns: one call on the question "mariage", starting from
the default prompt, leaves the chain holding the MARIAGE template. -/
theorem ask_question_prompt_leaks :
    (ask_question (fun _ _ => Except.ok none) "mariage" [] { prompt := default_prompt }).chain
      ≠ { prompt := default_prompt } := by
  decide

/-- C8 amended: the template is written to the shared chain state, where
it persists after the call (observable by the next request); each
non-blank call rebinds it to its own category's template before invoking
generation, so under sequential execution every generation call still
uses the template selected for its own question. -/
theorem ask_question_prompt_binding
    (gen : PromptTemplate → String → Except String (Option String))
    (question : String) (chat_display : List Turn) (chain : ChainState)
    (hq : pyStrip question ≠ "") :
    (ask_question gen question chat_display chain).chain.prompt
      = dictGet prompt_map (detect_event_type question) default_prompt
    ∧ (ask_question gen question chat_display chain).gen_calls.map Prod.fst
      = [(ask_question gen question chat_display chain).chain.prompt] := by
  constructor <;> simp [ask_question, hq]

/-- C8 amended witness: the question "mariage" at a concrete state. -/
theorem ask_question_prompt_binding_witness :
    pyStrip "mariage" ≠ ""
    ∧ ((ask_question (fun _ _ => Except.ok none) "mariage" []
          { prompt := default_prompt }).chain.prompt
        = dictGet prompt_map (detect_event_type "mariage") default_prompt
      ∧ (ask_question (fun _ _ => Except.ok none) "mariage" []
          { prompt := default_prompt }).gen_calls.map Prod.fst
        = [(ask_question (fun _ _ => Except.ok none) "mariage" []
            { prompt := default_prompt }).chain.prompt]) :=
  ⟨by decide,
   ask_question_prompt_binding (fun _ _ => Except.ok none) "mariage" []
     { prompt := default_prompt } (by decide)⟩

/-- C9: when the store is empty the retrieval index is built over exactly
the one placeholder document with the fixed welcome text and type
SEMINAIRE; when it is non-empty, over all stored documents; the input to
the index build is never the empty list. -/
theorem create_retriever_nonempty (db : DB) :
    (db.rows = [] →
      create_retriever_docs db = [dummy_doc]
      ∧ dummy_doc.page_content
          = "Bienvenue sur EventBot Pro. Aucun document n\x27est encore disponible."
      ∧ dummy_doc.type = "SEMINAIRE")
    ∧ (db.rows ≠ [] → create_retriever_docs db = load_documents_from_db db)
    ∧ create_retriever_docs db ≠ [] := by
  refine ⟨?_, ?_, ?_⟩
  · intro h
    refine ⟨?_, rfl, rfl⟩
    simp [create_retriever_docs, load_documents_from_db, h]
  · intro h
    have hne : load_documents_from_db db ≠ [] := by
      simp [load_documents_from_db, h]
    simp [create_retriever_docs, hne]
  · by_cases h : load_documents_from_db db = []
    · simp [create_retriever_docs, h]
    · simp [create_retriever_docs, h]

/-- C9 witness: an empty store and a one-row store. -/
theorem create_retriever_nonempty_witness :
    create_retriever_docs { rows := [], nextId := 1 } = [dummy_doc]
    ∧ create_retriever_docs { rows := [⟨1, "T", "texte", "CRÉATIVITÉ"⟩], nextId := 2 }
        = load_documents_from_db { rows := [⟨1, "T", "texte", "CRÉATIVITÉ"⟩], nextId := 2 } :=
  ⟨((create_retriever_nonempty { rows := [], nextId := 1 }).1 rfl).1,
   (create_retriever_nonempty { rows := [⟨1, "T", "texte", "CRÉATIVITÉ"⟩], nextId := 2 }).2.1
     (by decide)⟩

/-- C10: keyword matching is plain substring containment on the
lowercased input, not whole-word matching: "comment standardiser" has no
word equal to any question keyword, yet it contains "stand" and is
classified SALON rather than the SEMINAIRE fallback; likewise the
filename "budgetisation.xlsx" has no word equal to a filename keyword yet
is classified BUDGET. -/
theorem substring_matching :
    detect_event_type "comment standardiser" = "SALON"
    ∧ pyIn "stand" (pyLower "comment standardiser") = true
    ∧ (wordsOf "comment standardiser").all
        (fun w => ((questionRules.map Prod.fst).flatten).all (fun k => w != k)) = true
    ∧ detect_type_from_filename "budgetisation.xlsx" = "BUDGET"
    ∧ pyIn "budget" (pyLower "budgetisation.xlsx") = true
    ∧ (wordsOf "budgetisation.xlsx").all
        (fun w => ((filenameRules.map Prod.fst).flatten).all (fun k => w != k)) = true := by
  refine ⟨by decide, by decide, by decide, by decide, by decide, by decide⟩

/-- Inserting a row changes the count of a title by one exactly for the
inserted title. -/
lemma countTitle_insertRow (db : DB) (ti c ty t : String) :
    countTitle (insertRow db ti c ty) t
      = countTitle db t + (if ti == t then 1 else 0) := by
  by_cases h : ti == t <;>
    simp_all [countTitle, insertRow, List.filter_append, List.filter_cons]

/-- A title has a nonzero count exactly when it is among the stored
titles. -/
lemma count_rows_ne_zero_iff (rows : List DBRow) (t : String) :
    (rows.filter (fun r => r.title == t)).length ≠ 0
      ↔ t ∈ rows.map (fun r => r.title) := by
  induction rows with
  | nil => simp
  | cons r rs ih =>
    by_cases h : r.title = t
    · simp [List.filter_cons, h]
    · simp [List.filter_cons, h, ih, Ne.symm h]

/-- countTitle phrased through the title list. -/
lemma countTitle_ne_zero_iff (db : DB) (t : String) :
    countTitle db t ≠ 0 ↔ t ∈ titles db := by
  exact count_rows_ne_zero_iff db.rows t

/-- Unfolding insert_pdfs_from on a missing head path. -/
lemma insert_pdfs_from_cons_missing (fs : FS) (p : String) (rest : List String) (db : DB)
    (hb : fs.path_exists p = false) :
    insert_pdfs_from fs (p :: rest) db =
      ((insert_pdfs_from fs rest db).1,
       p :: (insert_pdfs_from fs rest db).2.1,
       (insert_pdfs_from fs rest db).2.2) := by
  simp [insert_pdfs_from, hb]

/-- Unfolding insert_pdfs_from on a head path whose extraction fails. -/
lemma insert_pdfs_from_cons_fail (fs : FS) (p : String) (rest : List String) (db : DB)
    (e : String) (hb : fs.path_exists p = true)
    (hx : fs.extract_pages p = Except.error e) :
    insert_pdfs_from fs (p :: rest) db =
      ((insert_pdfs_from fs rest db).1,
       (insert_pdfs_from fs rest db).2.1,
       (p, e) :: (insert_pdfs_from fs rest db).2.2) := by
  simp [insert_pdfs_from, hb, hx]

/-- Unfolding insert_pdfs_from on a head path whose extraction succeeds:
the row is inserted only when its title is not yet present. -/
lemma insert_pdfs_from_cons_ok (fs : FS) (p : String) (rest : List String) (db : DB)
    (pages : List String) (hb : fs.path_exists p = true)
    (hx : fs.extract_pages p = Except.ok pages) :
    insert_pdfs_from fs (p :: rest) db =
      insert_pdfs_from fs rest
        (if countTitle db (basename p) = 0
         then insertRow db (basename p) (String.intercalate "\n" pages)
                (detect_type_from_filename (basename p))
         else db) := by
  simp [insert_pdfs_from, hb, hx]

/-- The dedup guard preserves the at-most-one bound on every title. -/
lemma insert_pdfs_from_count_le (fs : FS) :
    ∀ (paths : List String) (db : DB) (t : String), countTitle db t ≤ 1 →
      countTitle (insert_pdfs_from fs paths db).1 t ≤ 1 := by
  intro paths
  induction paths with
  | nil => intro db t h; simpa [insert_pdfs_from] using h
  | cons q rest ih =>
    intro db t h
    cases hb : fs.path_exists q with
    | false =>
      rw [insert_pdfs_from_cons_missing fs q rest db hb]
      exact ih db t h
    | true =>
      cases hx : fs.extract_pages q with
      | error e =>
        rw [insert_pdfs_from_cons_fail fs q rest db e hb hx]
        exact ih db t h
      | ok pages =>
        rw [insert_pdfs_from_cons_ok fs q rest db pages hb hx]
        apply ih
        by_cases hc : countTitle db (basename q) = 0
        · rw [if_pos hc, countTitle_insertRow]
          by_cases he : basename q == t
          · have ht : countTitle db t = 0 := by
              have : basename q = t := by simpa using he
              rwa [this] at hc
            simp [he, ht]
          · simpa [he] using h
        · rwa [if_neg hc]

/-- A title already present stays present through the rest of the run. -/
lemma insert_pdfs_from_count_pos (fs : FS) :
    ∀ (paths : List String) (db : DB) (t : String), countTitle db t ≠ 0 →
      countTitle (insert_pdfs_from fs paths db).1 t ≠ 0 := by
  intro paths
  induction paths with
  | nil => intro db t h; simpa [insert_pdfs_from] using h
  | cons q rest ih =>
    intro db t h
    cases hb : fs.path_exists q with
    | false =>
      rw [insert_pdfs_from_cons_missing fs q rest db hb]
      exact ih db t h
    | true =>
      cases hx : fs.extract_pages q with
      | error e =>
        rw [insert_pdfs_from_cons_fail fs q rest db e hb hx]
        exact ih db t h
      | ok pages =>
        rw [insert_pdfs_from_cons_ok fs q rest db pages hb hx]
        apply ih
        by_cases hc : countTitle db (basename q) = 0
        · rw [if_pos hc, countTitle_insertRow]
          by_cases he : basename q == t
          · simp [he]
          · simpa [he] using h
        · rwa [if_neg hc]

/-- A path that exists and extracts successfully ends up stored, whatever
else is in the batch. -/
lemma insert_pdfs_from_success_stored (fs : FS) (p : String) (pages : List String)
    (hb : fs.path_exists p = true) (hx : fs.extract_pages p = Except.ok pages) :
    ∀ (paths : List String) (db : DB), p ∈ paths →
      countTitle (insert_pdfs_from fs paths db).1 (basename p) ≠ 0 := by
  intro paths
  induction paths with
  | nil => intro db hp; simp at hp
  | cons q rest ih =>
    intro db hp
    rcases List.mem_cons.mp hp with hq | hmem
    · have hbq : fs.path_exists q = true := hq ▸ hb
      have hxq : fs.extract_pages q = Except.ok pages := hq ▸ hx
      rw [hq]
      rw [insert_pdfs_from_cons_ok fs q rest db pages hbq hxq]
      apply insert_pdfs_from_count_pos
      by_cases hc : countTitle db (basename q) = 0
      · rw [if_pos hc, countTitle_insertRow]
        simp [hc]
      · rwa [if_neg hc]
    · cases hb2 : fs.path_exists q with
      | false =>
        rw [insert_pdfs_from_cons_missing fs q rest db hb2]
        exact ih db hmem
      | true =>
        cases hx2 : fs.extract_pages q with
        | error e =>
          rw [insert_pdfs_from_cons_fail fs q rest db e hb2 hx2]
          exact ih db hmem
        | ok pages2 =>
          rw [insert_pdfs_from_cons_ok fs q rest db pages2 hb2 hx2]
          exact ih _ hmem

/-- When every path that would extract successfully already has its title
stored, the run leaves the table unchanged. -/
lemma insert_pdfs_from_noop (fs : FS) :
    ∀ (paths : List String) (db : DB),
      (∀ p ∈ paths, fs.path_exists p = true →
        ∀ pages, fs.extract_pages p = Except.ok pages →
          countTitle db (basename p) ≠ 0) →
      (insert_pdfs_from fs paths db).1 = db := by
  intro paths
  induction paths with
  | nil => intro db _; rfl
  | cons q rest ih =>
    intro db h
    cases hb : fs.path_exists q with
    | false =>
      rw [insert_pdfs_from_cons_missing fs q rest db hb]
      exact ih db (fun p hp => h p (List.mem_cons_of_mem q hp))
    | true =>
      cases hx : fs.extract_pages q with
      | error e =>
        rw [insert_pdfs_from_cons_fail fs q rest db e hb hx]
        exact ih db (fun p hp => h p (List.mem_cons_of_mem q hp))
      | ok pages =>
        have hc : countTitle db (basename q) ≠ 0 :=
          h q (List.mem_cons_self q rest) hb pages hx
        rw [insert_pdfs_from_cons_ok fs q rest db pages hb hx, if_neg hc]
        exact ih db (fun p hp => h p (List.mem_cons_of_mem q hp))

/-- The missing report is exactly the non-existing paths, in input
order. -/
lemma insert_pdfs_from_missing_eq (fs : FS) :
    ∀ (paths : List String) (db : DB),
      (insert_pdfs_from fs paths db).2.1
        = paths.filter (fun p => !fs.path_exists p) := by
  intro paths
  induction paths with
  | nil => intro db; rfl
  | cons q rest ih =>
    intro db
    cases hb : fs.path_exists q with
    | false =>
      rw [insert_pdfs_from_cons_missing fs q rest db hb]
      simp [List.filter_cons, hb, ih db]
    | true =>
      cases hx : fs.extract_pages q with
      | error e =>
        rw [insert_pdfs_from_cons_fail fs q rest db e hb hx]
        simp [List.filter_cons, hb, ih db]
      | ok pages =>
        rw [insert_pdfs_from_cons_ok fs q rest db pages hb hx]
        simp [List.filter_cons, hb, ih]

/-- The failed report is exactly the existing paths whose extraction
raises, with their messages, in input order. -/
lemma insert_pdfs_from_failed_eq (fs : FS) :
    ∀ (paths : List String) (db : DB),
      (insert_pdfs_from fs paths db).2.2
        = paths.filterMap (fun p =>
            if fs.path_exists p then
              match fs.extract_pages p with
              | Except.error e => some (p, e)
              | Except.ok _ => none
            else none) := by
  intro paths
  induction paths with
  | nil => intro db; rfl
  | cons q rest ih =>
    intro db
    cases hb : fs.path_exists q with
    | false =>
      rw [insert_pdfs_from_cons_missing fs q rest db hb]
      simp [List.filterMap_cons, hb, ih db]
    | true =>
      cases hx : fs.extract_pages q with
      | error e =>
        rw [insert_pdfs_from_cons_fail fs q rest db e hb hx]
        simp [List.filterMap_cons, hb, hx, ih db]
      | ok pages =>
        rw [insert_pdfs_from_cons_ok fs q rest db pages hb hx]
        simp [List.filterMap_cons, hb, hx, ih]

/-- C3: the store never gains two entries with the same title (the
insert checks the title and skips silently); any path ingested any
number of times yields exactly one stored document; re-running the whole
pipeline against the same filesystem inserts nothing new. -/
theorem insert_pdfs_dedup_idempotent (fs : FS) (db : DB)
    (hnd : ∀ t, countTitle db t ≤ 1) :
    (∀ t, countTitle (insert_pdfs fs db).1 t ≤ 1)
    ∧ (insert_pdfs fs (insert_pdfs fs db).1).1 = (insert_pdfs fs db).1
    ∧ (∀ p pages, p ∈ PDF_PATHS → fs.path_exists p = true →
        fs.extract_pages p = Except.ok pages →
        countTitle (insert_pdfs fs db).1 (basename p) = 1) := by
  refine ⟨fun t => insert_pdfs_from_count_le fs PDF_PATHS db t (hnd t), ?_, ?_⟩
  · exact insert_pdfs_from_noop fs PDF_PATHS (insert_pdfs fs db).1
      (fun p hp hb pages hx =>
        insert_pdfs_from_success_stored fs p pages hb hx PDF_PATHS db hp)
  · intro p pages hp hb hx
    have h1 := insert_pdfs_from_count_le fs PDF_PATHS db (basename p) (hnd _)
    have h2 := insert_pdfs_from_success_stored fs p pages hb hx PDF_PATHS db hp
    unfold insert_pdfs
    omega

/-- A filesystem on which every path exists and extracts to one page. -/
def fsAllOk : FS :=
  { path_exists := fun _ => true,
    extract_pages := fun p => Except.ok ["contenu de " ++ p] }

/-- The freshly created, empty documents table. -/
def emptyDB : DB := { rows := [], nextId := 1 }

/-- C3 witness: re-running the pipeline on the empty store against a
filesystem where every PDF extracts successfully changes nothing. -/
theorem insert_pdfs_dedup_idempotent_witness :
    (insert_pdfs fsAllOk (insert_pdfs fsAllOk emptyDB).1).1
      = (insert_pdfs fsAllOk emptyDB).1 :=
  (insert_pdfs_dedup_idempotent fsAllOk emptyDB
    (fun t => by simp [countTitle, emptyDB])).2.1

/-- C4: in one run over any path list, the missing and failed reports
list exactly the non-existing paths and the paths whose extraction
raised, each in input order, and every path that exists and extracts
successfully has its title stored at the end — the whole list is always
processed and no failure escapes the batch. -/
theorem insert_pdfs_error_handling (fs : FS) (paths : List String) (db : DB) :
    (insert_pdfs_from fs paths db).2.1
      = paths.filter (fun p => !fs.path_exists p)
    ∧ (insert_pdfs_from fs paths db).2.2
        = paths.filterMap (fun p =>
            if fs.path_exists p then
              match fs.extract_pages p with
              | Except.error e => some (p, e)
              | Except.ok _ => none
            else none)
    ∧ (∀ p pages, p ∈ paths → fs.path_exists p = true →
        fs.extract_pages p = Except.ok pages →
        basename p ∈ titles (insert_pdfs_from fs paths db).1) := by
  refine ⟨insert_pdfs_from_missing_eq fs paths db,
          insert_pdfs_from_failed_eq fs paths db, ?_⟩
  intro p pages hp hb hx
  exact (countTitle_ne_zero_iff _ _).mp
    (insert_pdfs_from_success_stored fs p pages hb hx paths db hp)

end EventBot
